import Mathlib

/-!
# Verification of the picard serial-panel bridge

Shallow embedding of the core of the `picard` repository (a bridge between a
flight-simulation host and serial instrument panels) together with proofs of
the frozen specification claims.

The embedding follows the source files:
* `src/sim.rs` — data model (`AircraftSimState`, `LandingGearStatus`,
  `SimClientEvent`), the SimConnect event loop (`SimCommunicator::run_event_loop`)
  and the outer retry loop (`SimCommunicator::run`);
* `src/panels/eventsim.rs` — the EventSim panel loop (`EventSimPanel::run`),
  its serial-command decoder (`handle_serial_command`) and state encoder
  (`send_state`);
* `src/panels/airspeedindicator.rs` — the airspeed-indicator panel loop.

Rust `f64` values (gear positions, airspeed) are modelled as `ℚ`; the only
operations the code performs on them are equality tests against `0.0`/`1.0`,
the derived `PartialEq` on the whole state, and the `as i32` cast, all of
which are represented exactly on `ℚ` (the cast with Rust's documented
truncate-toward-zero-with-saturation semantics).  Machine integers written to
the wire are modelled as `Int`.  The fallible external collaborators (the
serial transport's read side, the `mpsc` channels, the SimConnect client) are
modelled by feeding their per-iteration results to the loop-body functions as
explicit inputs; a Rust `panic!`/`expect`/`unreachable!` is modelled as an
explicit `panic` outcome carrying the panic message.
-/

namespace Picard

/-! ## Data model (`src/sim.rs`) -/

/-- `LandingGearStatus` from `src/sim.rs` (lines 53–58). -/
inductive LandingGearStatus
  | unknown
  | up
  | down
deriving DecidableEq, Repr

/-- `impl From<f64> for LandingGearStatus` (`src/sim.rs` lines 60–70):
`0.0` maps to `Up`, `1.0` to `Down`, everything else to `Unknown`.
The `f64` gear position is modelled as `ℚ`. -/
def LandingGearStatus.fromPosition (value : ℚ) : LandingGearStatus :=
  if value = 0 then .up
  else if value = 1 then .down
  else .unknown

/-- `LandingGearStatus::as_int` (`src/sim.rs` lines 72–80). -/
def LandingGearStatus.asInt : LandingGearStatus → Int
  | .up => 0
  | .down => 1
  | .unknown => 2

/-- `AircraftSimState` from `src/sim.rs` (lines 32–39); `airspeed: f64`
is modelled as `ℚ`.  Equality is the derived field-wise `PartialEq`. -/
structure AircraftSimState where
  parking_brake_indicator : Bool
  gear_center_state : LandingGearStatus
  gear_left_state : LandingGearStatus
  gear_right_state : LandingGearStatus
  airspeed : ℚ
deriving DecidableEq, Repr

/-- `AircraftSimData` from `src/sim.rs` (lines 12–30): the raw SimConnect
telemetry record, gear positions and airspeed as `f64` (modelled `ℚ`). -/
structure AircraftSimData where
  gear_center_position : ℚ
  gear_left_position : ℚ
  gear_right_position : ℚ
  airspeed : ℚ
  parking_brake_indicator : Bool
deriving DecidableEq, Repr

/-- `impl From<AircraftSimData> for AircraftSimState` (`src/sim.rs` lines 41–51). -/
def AircraftSimData.toState (value : AircraftSimData) : AircraftSimState :=
  { parking_brake_indicator := value.parking_brake_indicator
    gear_center_state := .fromPosition value.gear_center_position
    gear_left_state := .fromPosition value.gear_left_position
    gear_right_state := .fromPosition value.gear_right_position
    airspeed := value.airspeed }

/-- `SimClientEvent` from `src/sim.rs` (lines 82–99): the closed set of
fourteen panel commands. -/
inductive SimClientEvent
  | landingLightsOn
  | landingLightsOff
  | taxiLightsOn
  | taxiLightsOff
  | strobeLightsOn
  | strobeLightsOff
  | navLightsOn
  | navLightsOff
  | flapsUp
  | flapsDown
  | parkingBrakeOn
  | parkingBrakeOff
  | landingGearUp
  | landingGearDown
deriving DecidableEq, Repr

/-- `Event` from `src/main.rs`/`src/lib` root: the router's channel payload. -/
inductive Event
  | setSimulator (e : SimClientEvent)
  | setPanel (s : AircraftSimState)
deriving DecidableEq, Repr

/-- `PanelError` from `src/panel.rs` (lines 18–28); payloads of the
error-cause wrappers are modelled as strings. -/
inductive PanelError
  | serialOpen (port : String) (cause : String)
  | disconnect
  | serial (cause : String)
  | io (cause : String)
deriving DecidableEq, Repr

/-! ## Wire lines written by the bridge

Each `writeln!` the bridge performs is modelled as a structured `OutLine`
value; `OutLine.render` produces the exact line content the code formats
(the transport appends the newline terminator that `writeln!` adds and that
the peer's line reader strips). -/

/-- One line written by the bridge to a serial transport. -/
inductive OutLine
  | syn
  | ack
  | ping
  | pong
  | parkingBrake (v : Int)
  | frontGear (v : Int)
  | leftGear (v : Int)
  | rightGear (v : Int)
  | airspeedLine (v : Int)
deriving DecidableEq, Repr

/-- Rust `bool as i32`. -/
def boolToI32 (b : Bool) : Int := if b then 1 else 0

/-- The exact text of each outbound line, as formatted by the `writeln!`
calls in `send_state` (`src/panels/eventsim.rs` lines 155–164), the
handshake/keepalive replies, and the airspeed panel's write
(`src/panels/airspeedindicator.rs` lines 56–60). -/
def OutLine.render : OutLine → String
  | .syn => "SYN"
  | .ack => "ACK"
  | .ping => "PING"
  | .pong => "PONG"
  | .parkingBrake v => "PARKING_BRAKE:" ++ toString v
  | .frontGear v => "FRONT_GEAR_LED:" ++ toString v
  | .leftGear v => "LEFT_GEAR_LED:" ++ toString v
  | .rightGear v => "RIGHT_GEAR_LED:" ++ toString v
  | .airspeedLine v =>
      "Type<I-A>::Target<Airspeed-Indicator>::Content<" ++ toString v
        ++ ">::Origin<Interface>;"

/-- Predicate: is this a keepalive `PING` line?  (analysis helper) -/
def OutLine.isPing : OutLine → Bool
  | .ping => true
  | _ => false

/-- Predicate: is this a `PARKING_BRAKE:` state line?  (analysis helper) -/
def OutLine.isParkingBrake : OutLine → Bool
  | .parkingBrake _ => true
  | _ => false

/-- Predicate: is this a `FRONT_GEAR_LED:` state line?  (analysis helper) -/
def OutLine.isFrontGear : OutLine → Bool
  | .frontGear _ => true
  | _ => false

/-- Predicate: is this a `LEFT_GEAR_LED:` state line?  (analysis helper) -/
def OutLine.isLeftGear : OutLine → Bool
  | .leftGear _ => true
  | _ => false

/-- Predicate: is this a `RIGHT_GEAR_LED:` state line?  (analysis helper) -/
def OutLine.isRightGear : OutLine → Bool
  | .rightGear _ => true
  | _ => false

/-- `send_state` (`src/panels/eventsim.rs` lines 155–164): the four state
lines written to the device, in program order. -/
def sendState (state : AircraftSimState) : List OutLine :=
  [ .parkingBrake (boolToI32 state.parking_brake_indicator),
    .frontGear state.gear_center_state.asInt,
    .leftGear state.gear_left_state.asInt,
    .rightGear state.gear_right_state.asInt ]

/-! ## EventSim panel loop (`src/panels/eventsim.rs`) -/

/-- `handle_serial_command`'s token→command table
(`src/panels/eventsim.rs` lines 130–153): the `match cmd` arms, with the
catch-all arm returning nothing. -/
def decodeCommand (cmd : String) : Option SimClientEvent :=
  if cmd = "MISC1:0" then some .taxiLightsOff
  else if cmd = "MISC1:1" then some .taxiLightsOn
  else if cmd = "MISC2:0" then some .landingLightsOff
  else if cmd = "MISC2:1" then some .landingLightsOn
  else if cmd = "MISC3:0" then some .navLightsOff
  else if cmd = "MISC3:1" then some .navLightsOn
  else if cmd = "MISC4:0" then some .strobeLightsOff
  else if cmd = "MISC4:1" then some .strobeLightsOn
  else if cmd = "FLAPS_UP" then some .flapsUp
  else if cmd = "FLAPS_DN" then some .flapsDown
  else if cmd = "PARKING_BRAKE:0" then some .parkingBrakeOff
  else if cmd = "PARKING_BRAKE:1" then some .parkingBrakeOn
  else if cmd = "LANDING_GEAR:0" then some .landingGearUp
  else if cmd = "LANDING_GEAR:1" then some .landingGearDown
  else none

/-- `handle_serial_command` (`src/panels/eventsim.rs` lines 130–152):
decodes the token and pushes the command on `hw_tx`; an unrecognized token
returns without sending; a send on a disconnected channel is
`.expect("SimConnect thread offline")`, i.e. a panic.  `hwTxAlive` is the
aliveness of the `hw_tx` channel's receiver. -/
def handleSerialCommand (hwTxAlive : Bool) (cmd : String) :
    Except String (List SimClientEvent) :=
  match decodeCommand cmd with
  | none => .ok []
  | some event => if hwTxAlive then .ok [event] else .error "SimConnect thread offline"

/-- The mutable loop state of `EventSimPanel::run`
(`src/panels/eventsim.rs`): the `connected` flag, the `aircraft_sim_state`
last-sent baseline, and the keepalive timestamp `et` (milliseconds). -/
structure PanelLoopState where
  connected : Bool
  aircraft_sim_state : Option AircraftSimState
  et : Nat
deriving DecidableEq, Repr

/-- Result of one `sim_rx.try_recv()` call (`std::sync::mpsc::TryRecvError`). -/
inductive TryRecv
  | ok (e : Event)
  | empty
  | disconnected
deriving DecidableEq, Repr

/-- Result of one `line_reader.next()` poll on the serial port:
a full line, a read timeout, or another I/O error. -/
inductive SerialRead
  | line (s : String)
  | timedOut
  | ioErr (cause : String)
deriving DecidableEq, Repr

/-- The external inputs consumed by one iteration of the EventSim panel
loop: the `try_recv` outcome, the serial-line poll outcome (`none` = the
line iterator yielded nothing), the aliveness of `hw_tx`'s receiver, and
the current time in milliseconds (`Instant::now()`). -/
structure PanelInput where
  simRecv : TryRecv
  serial : Option SerialRead
  hwTxAlive : Bool
  now : Nat
deriving DecidableEq, Repr

/-- How one panel-loop iteration ends: continue with a new state, return a
fatal `PanelError`, or panic. -/
inductive PanelStep
  | cont (st : PanelLoopState)
  | fatal (e : PanelError)
  | panic (msg : String)
deriving DecidableEq, Repr

/-- Everything one panel-loop iteration produced: the lines written to the
serial port (in order), the commands pushed to `hw_tx`, and the outcome. -/
structure PanelIterResult where
  writes : List OutLine
  cmds : List SimClientEvent
  next : PanelStep
deriving DecidableEq, Repr

/-- Duty 1 of `EventSimPanel::run` (`src/panels/eventsim.rs` lines 56–78):
if connected, `try_recv` a control message; on `SetPanel(state)` send the
state iff it differs from the last one sent (or none was ever sent), then
remember it; a `Disconnected` channel is `unreachable!()` (a panic).
Returns the written lines and the new `aircraft_sim_state`, or the panic
message. -/
def recvDuty (st : PanelLoopState) : TryRecv →
    (List OutLine × Option AircraftSimState) ⊕ String
  | .ok (.setPanel state) =>
      if st.connected then
        let writes :=
          if (st.aircraft_sim_state.map (fun old_state => old_state != state)).getD true
          then sendState state else []
        .inl (writes, some state)
      else .inl ([], st.aircraft_sim_state)
  | .disconnected =>
      if st.connected then .inr "internal error: entered unreachable code"
      else .inl ([], st.aircraft_sim_state)
  | _ => .inl ([], st.aircraft_sim_state)

/-- Outcome of the serial-read duty: lines written in reply, commands
pushed, and the (possibly updated) `connected` flag — or a fatal error or
panic. -/
inductive SerialAction
  | proceed (writes : List OutLine) (cmds : List SimClientEvent) (connected : Bool)
  | fatal (e : PanelError)
  | panic (msg : String)
deriving DecidableEq, Repr

/-- Duty 2 of `EventSimPanel::run` (`src/panels/eventsim.rs` lines 80–102):
classify one polled serial line.  `SYN|ACK` → reply `ACK` and set
`connected`; `RST` → fatal `Disconnect`; `PING` → reply `PONG`; `PONG` →
no-op; any other line goes to `handle_serial_command`; a timeout is
ignored; any other read error is fatal. -/
def serialDuty (connected : Bool) (hwTxAlive : Bool) :
    Option SerialRead → SerialAction
  | none => .proceed [] [] connected
  | some (.line msg) =>
      if msg = "SYN|ACK" then .proceed [.ack] [] true
      else if msg = "RST" then .fatal .disconnect
      else if msg = "PING" then .proceed [.pong] [] connected
      else if msg = "PONG" then .proceed [] [] connected
      else
        match handleSerialCommand hwTxAlive msg with
        | .ok cmds => .proceed [] cmds connected
        | .error m => .panic m
  | some .timedOut => .proceed [] [] connected
  | some (.ioErr cause) => .fatal (.io cause)

/-- Duty 3 of `EventSimPanel::run` (`src/panels/eventsim.rs` lines
104–109): if `now > et + 500` ms, write one `PING` and set `et := now`. -/
def keepalive (et now : Nat) : List OutLine × Nat :=
  if now > et + 500 then ([.ping], now) else ([], et)

/-- One full iteration of the `loop` in `EventSimPanel::run`
(`src/panels/eventsim.rs` lines 55–110): duty 1 (control messages), duty 2
(serial read), duty 3 (keepalive), in program order; a fatal error or
panic in an earlier duty skips the later ones, keeping the lines already
written. -/
def eventsimStep (st : PanelLoopState) (inp : PanelInput) : PanelIterResult :=
  match recvDuty st inp.simRecv with
  | .inr msg => { writes := [], cmds := [], next := .panic msg }
  | .inl (w1, last) =>
    match serialDuty st.connected inp.hwTxAlive inp.serial with
    | .panic m => { writes := w1, cmds := [], next := .panic m }
    | .fatal e => { writes := w1, cmds := [], next := .fatal e }
    | .proceed w2 cmds conn =>
      let ka := keepalive st.et inp.now
      { writes := w1 ++ w2 ++ ka.1
        cmds := cmds
        next := .cont { connected := conn, aircraft_sim_state := last, et := ka.2 } }

/-- Run the EventSim panel loop over a list of per-iteration inputs,
concatenating everything written and every command pushed, stopping early
at a fatal error or panic. -/
def eventsimRun (st : PanelLoopState) : List PanelInput → PanelIterResult
  | [] => { writes := [], cmds := [], next := .cont st }
  | inp :: rest =>
    let r := eventsimStep st inp
    match r.next with
    | .cont st' =>
      let rr := eventsimRun st' rest
      { writes := r.writes ++ rr.writes, cmds := r.cmds ++ rr.cmds, next := rr.next }
    | other => { writes := r.writes, cmds := r.cmds, next := other }

/-! ## Simulation link (`src/sim.rs`) -/

/-- One registration call issued in the `Notification::Open` branch of
`SimCommunicator::run_event_loop` (`src/sim.rs` lines 186–207):
`register_object::<AircraftSimData>` or one `map_client_event_to_sim_event`. -/
inductive RegCall
  | registerObject
  | mapEvent (e : SimClientEvent)
deriving DecidableEq, Repr

/-- The registration sequence of the `Open` branch, in program order
(`src/sim.rs` lines 189–204): the data subscription followed by the
fourteen command-to-host-event mappings. -/
def regCalls : List RegCall :=
  [ .registerObject,
    .mapEvent .landingLightsOn, .mapEvent .landingLightsOff,
    .mapEvent .taxiLightsOn, .mapEvent .taxiLightsOff,
    .mapEvent .strobeLightsOn, .mapEvent .strobeLightsOff,
    .mapEvent .navLightsOn, .mapEvent .navLightsOff,
    .mapEvent .flapsUp, .mapEvent .flapsDown,
    .mapEvent .parkingBrakeOn, .mapEvent .parkingBrakeOff,
    .mapEvent .landingGearUp, .mapEvent .landingGearDown ]

/-- Outcome of the whole registration sequence: every call of `regCalls`
succeeded, or the first failing call (each call uses `?`, so the first
failure aborts the branch with its `SimConnectError`). -/
inductive RegOutcome
  | ok
  | failAt (i : Fin 15) (msg : String)
deriving DecidableEq, Repr

deriving instance DecidableEq for Except

/-- `simconnect_sdk::Notification` as matched by `run_event_loop`
(`src/sim.rs` lines 185–226): `Open`, `Quit`, `Object` (whose
`AircraftSimData::try_from` may fail — the `?` on line 214), or an
unrecognized kind. -/
inductive Notification
  | opened
  | quit
  | object (conv : Except String AircraftSimData)
  | unknown
deriving DecidableEq, Repr

/-- Result of one `hw_rx.try_recv()` call in the sim loop. -/
inductive HwRecv
  | ok (e : Event)
  | empty
  | disconnected
deriving DecidableEq, Repr

/-- The external inputs consumed by one iteration of
`SimCommunicator::run_event_loop`: the `try_recv` outcome, the result of
`transmit_event` if one is attempted (`none` = success), the result of
`get_next_dispatch` and the outcome of the registration sequence if the
dispatch is `Open`. -/
structure SimInput where
  hwRecv : HwRecv
  transmitResult : Option String
  dispatch : Except String (Option Notification)
  regOutcome : RegOutcome
deriving DecidableEq, Repr

/-- The mutable state of `SimCommunicator` (`src/sim.rs` lines 134–138):
the `connected` flag and the fan-out list `sim_txs`, each sender modelled
by the aliveness of its receiving panel thread. -/
structure SimState where
  connected : Bool
  panels : List Bool
deriving DecidableEq, Repr

/-- How one sim-loop iteration ends: continue, `return Ok(exitSignal)`,
`return Err(e)`, or panic. -/
inductive SimIterNext
  | cont (st : SimState)
  | ret (exitSignal : Bool)
  | err (e : String)
  | panic (msg : String)
deriving DecidableEq, Repr

/-- Everything one sim-loop iteration produced: the commands handed to
`transmit_event`, how many leading fan-out channels the decoded state was
sent to (the `for` loop sends in list order and `expect`-panics at the
first dead channel), the state value broadcast (if any), and the outcome. -/
structure SimIterResult where
  transmitted : List SimClientEvent
  delivered : Nat
  sentState : Option AircraftSimState
  next : SimIterNext
deriving DecidableEq, Repr

/-- The fan-out `for` loop of the `Notification::Object` branch
(`src/sim.rs` lines 216–220): send the state to each `sim_tx` in order;
a failed send (dead receiver) is `.expect("Failed to send to panel")`,
i.e. a panic, so later channels receive nothing.  Returns how many leading
channels received the state and the panic message, if any. -/
def broadcastState : List Bool → Nat × Option String
  | [] => (0, none)
  | alive :: rest =>
    if alive then
      let r := broadcastState rest
      (r.1 + 1, r.2)
    else (0, some "Failed to send to panel")

/-- One full iteration of the `loop` in `SimCommunicator::run_event_loop`
(`src/sim.rs` lines 174–231): duty 1 forwards one pending command iff
`connected` (a `Disconnected` fan-in channel is the exit signal
`return Ok(true)`); duty 2 matches `get_next_dispatch()?`: `Open` runs the
registration sequence and sets `connected` on success, `Quit` is
`return Ok(false)`, `Object` decodes the state and broadcasts it,
unknown/`None` are ignored. -/
def simStep (st : SimState) (inp : SimInput) : SimIterResult :=
  let d1 : List SimClientEvent × Option SimIterNext :=
    if st.connected then
      match inp.hwRecv with
      | .ok (.setSimulator event) => ([event], inp.transmitResult.map .err)
      | .disconnected => ([], some (.ret true))
      | _ => ([], none)
    else ([], none)
  match d1 with
  | (tx, some nxt) => { transmitted := tx, delivered := 0, sentState := none, next := nxt }
  | (tx, none) =>
    match inp.dispatch with
    | .error e => { transmitted := tx, delivered := 0, sentState := none, next := .err e }
    | .ok none => { transmitted := tx, delivered := 0, sentState := none, next := .cont st }
    | .ok (some .unknown) =>
        { transmitted := tx, delivered := 0, sentState := none, next := .cont st }
    | .ok (some .quit) =>
        { transmitted := tx, delivered := 0, sentState := none, next := .ret false }
    | .ok (some .opened) =>
        match inp.regOutcome with
        | .ok => { transmitted := tx, delivered := 0, sentState := none,
                   next := .cont { st with connected := true } }
        | .failAt _ msg =>
            { transmitted := tx, delivered := 0, sentState := none, next := .err msg }
    | .ok (some (.object conv)) =>
        match conv with
        | .error e => { transmitted := tx, delivered := 0, sentState := none, next := .err e }
        | .ok data =>
          let b := broadcastState st.panels
          match b.2 with
          | some msg => { transmitted := tx, delivered := b.1,
                          sentState := some data.toState, next := .panic msg }
          | none => { transmitted := tx, delivered := b.1,
                      sentState := some data.toState, next := .cont st }

/-- Run the sim event loop over a list of per-iteration inputs, collecting
every command handed to `transmit_event`, stopping early at a return,
error or panic. -/
def simRun (st : SimState) : List SimInput → List SimClientEvent × SimIterNext
  | [] => ([], .cont st)
  | inp :: rest =>
    let r := simStep st inp
    match r.next with
    | .cont st' =>
      let rr := simRun st' rest
      (r.transmitted ++ rr.1, rr.2)
    | other => (r.transmitted, other)

/-- What the outer retry loop of `SimCommunicator::run` does after one
connection attempt: exit the thread, or log, drop `connected` and retry
after the fixed backoff. -/
inductive OuterStep
  | exitThread
  | retry (backoffMs : Nat) (connectedAfter : Bool)
deriving DecidableEq, Repr

/-- One pass of the `loop` in `SimCommunicator::run` (`src/sim.rs` lines
149–172), as a function of the connection attempt's outcome
(`SimConnect::new` failure, or the event loop's `Result<bool, _>`):
only `Ok(Ok(true))` (the exit signal) returns from the thread; a peaceful
disconnect (`Ok(false)`), an in-loop error, or a connect failure all fall
through to `connected = false`, a 5-second sleep, and a retry. -/
def runOuter (attempt : Except String (Except String Bool)) : OuterStep :=
  match attempt with
  | .ok (.ok true) => .exitThread
  | .ok (.ok false) => .retry 5000 false
  | .ok (.error _) => .retry 5000 false
  | .error _ => .retry 5000 false

/-! ## Airspeed-indicator panel loop (`src/panels/airspeedindicator.rs`) -/

/-- Truncation toward zero of a rational, the rounding Rust's float→int
`as` cast applies. -/
def ratTruncTowardZero (v : ℚ) : Int :=
  if 0 ≤ v then ⌊v⌋ else ⌈v⌉

/-- Rust `f64 as i32` on a finite value: truncate toward zero, saturating
at the `i32` bounds (the cast's documented behavior). -/
def f64AsI32 (v : ℚ) : Int :=
  max (-2147483648) (min 2147483647 (ratTruncTowardZero v))

/-- One iteration of the `loop` in `AirspeedIndicatorPanel::run`
(`src/panels/airspeedindicator.rs` lines 52–68): every `SetPanel(state)`
received writes one airspeed line with `state.airspeed as i32`,
unconditionally (there is no last-state comparison); a `Disconnected`
channel is `unreachable!()` (a panic).  Returns the written lines and the
panic message, if any. -/
def airspeedStep : TryRecv → List OutLine × Option String
  | .ok (.setPanel state) => ([.airspeedLine (f64AsI32 state.airspeed)], none)
  | .disconnected => ([], some "internal error: entered unreachable code")
  | _ => ([], none)

/-- Run the airspeed panel loop over a list of `try_recv` outcomes,
stopping early at a panic. -/
def airspeedRun : List TryRecv → List OutLine × Option String
  | [] => ([], none)
  | i :: rest =>
    let r := airspeedStep i
    match r.2 with
    | some m => (r.1, some m)
    | none =>
      let rr := airspeedRun rest
      (r.1 ++ rr.1, rr.2)

/-! ## Concrete sample values used to instantiate theorems -/

/-- A concrete aircraft state: brake released, all gear up, airspeed 0. -/
def sampleState : AircraftSimState := ⟨false, .up, .up, .up, 0⟩

/-- A second concrete aircraft state, differing from `sampleState` in every
field. -/
def sampleState2 : AircraftSimState := ⟨true, .down, .up, .unknown, 100⟩

/-! ## Claim C8 -/

/-- C8: Round trip — encoding an Aircraft State whose parking-brake field
is `b` puts `PARKING_BRAKE:1` (for `true`) or `PARKING_BRAKE:0` (for
`false`) first in the written state lines, and decoding that line with the
panel's command decoder yields `ParkingBrakeOn` for `true` and
`ParkingBrakeOff` for `false`, recovering the original boolean. -/
theorem c8_parking_brake_roundtrip (b : Bool) (g1 g2 g3 : LandingGearStatus) (v : ℚ) :
    (sendState ⟨b, g1, g2, g3, v⟩).head? = some (.parkingBrake (boolToI32 b)) ∧
    (OutLine.parkingBrake (boolToI32 b)).render =
      (if b then "PARKING_BRAKE:1" else "PARKING_BRAKE:0") ∧
    decodeCommand (OutLine.parkingBrake (boolToI32 b)).render =
      some (if b then .parkingBrakeOn else .parkingBrakeOff) := by
  refine ⟨rfl, ?_, ?_⟩ <;> cases b <;> decide

/-! ## Claim C9 -/

/-- C9: Landing-gear handling — a gear position converts to `Up` exactly
when it equals `0.0`, to `Down` exactly when it equals `1.0`, and to
`Unknown` otherwise; `as_int` encodes `Up` as `0`, `Down` as `1` and
`Unknown` as `2`, so every gear LED state line carries a value in
`{0, 1, 2}` with `2` meaning unknown gear position. -/
theorem c9_gear_status_encoding (v : ℚ) (g : LandingGearStatus) (s : AircraftSimState) :
    (LandingGearStatus.fromPosition v = .up ↔ v = 0) ∧
    (LandingGearStatus.fromPosition v = .down ↔ v = 1) ∧
    (LandingGearStatus.fromPosition v = .unknown ↔ (v ≠ 0 ∧ v ≠ 1)) ∧
    (g.asInt = 0 ↔ g = .up) ∧
    (g.asInt = 1 ↔ g = .down) ∧
    (g.asInt = 2 ↔ g = .unknown) ∧
    g.asInt ∈ [0, 1, 2] ∧
    sendState s = [ .parkingBrake (boolToI32 s.parking_brake_indicator),
        .frontGear s.gear_center_state.asInt,
        .leftGear s.gear_left_state.asInt,
        .rightGear s.gear_right_state.asInt ] := by
  refine ⟨?_, ?_, ?_, ?_, ?_, ?_, ?_, rfl⟩
  · unfold LandingGearStatus.fromPosition
    split_ifs with h1 h2 <;> simp_all
  · unfold LandingGearStatus.fromPosition
    split_ifs with h1 h2 <;> simp_all
  · unfold LandingGearStatus.fromPosition
    split_ifs with h1 h2 <;> simp_all
  · cases g <;> decide
  · cases g <;> decide
  · cases g <;> decide
  · cases g <;> decide

/-! ## Claim C5 -/

/-- C5: Command decode — each of the fourteen wire tokens of the §6 table
maps to exactly one Panel Command variant (which the serial duty pushes to
the fan-in command channel), and every unrecognized token produces no
command and no error. -/
theorem c5_decode_table (s : String) :
    (decodeCommand "MISC1:0" = some .taxiLightsOff ∧
     decodeCommand "MISC1:1" = some .taxiLightsOn ∧
     decodeCommand "MISC2:0" = some .landingLightsOff ∧
     decodeCommand "MISC2:1" = some .landingLightsOn ∧
     decodeCommand "MISC3:0" = some .navLightsOff ∧
     decodeCommand "MISC3:1" = some .navLightsOn ∧
     decodeCommand "MISC4:0" = some .strobeLightsOff ∧
     decodeCommand "MISC4:1" = some .strobeLightsOn ∧
     decodeCommand "FLAPS_UP" = some .flapsUp ∧
     decodeCommand "FLAPS_DN" = some .flapsDown ∧
     decodeCommand "PARKING_BRAKE:0" = some .parkingBrakeOff ∧
     decodeCommand "PARKING_BRAKE:1" = some .parkingBrakeOn ∧
     decodeCommand "LANDING_GEAR:0" = some .landingGearUp ∧
     decodeCommand "LANDING_GEAR:1" = some .landingGearDown) ∧
    (s ∉ (["MISC1:0", "MISC1:1", "MISC2:0", "MISC2:1", "MISC3:0", "MISC3:1",
           "MISC4:0", "MISC4:1", "FLAPS_UP", "FLAPS_DN", "PARKING_BRAKE:0",
           "PARKING_BRAKE:1", "LANDING_GEAR:0", "LANDING_GEAR:1"] : List String) →
      decodeCommand s = none ∧ handleSerialCommand true s = .ok []) ∧
    (∀ e, decodeCommand s = some e →
      serialDuty true true (some (.line s)) = .proceed [] [e] true) := by
  refine ⟨by decide, ?_, ?_⟩
  · intro h
    simp only [List.mem_cons, List.not_mem_nil, not_or, or_false] at h
    obtain ⟨n1, n2, n3, n4, n5, n6, n7, n8, n9, n10, n11, n12, n13, n14⟩ := h
    constructor
    · simp [decodeCommand, n1, n2, n3, n4, n5, n6, n7, n8, n9, n10, n11, n12, n13, n14]
    · simp [handleSerialCommand, decodeCommand,
        n1, n2, n3, n4, n5, n6, n7, n8, n9, n10, n11, n12, n13, n14]
  · intro e he
    have h1 : s ≠ "SYN|ACK" := by
      intro h
      rw [h, show decodeCommand "SYN|ACK" = (none : Option SimClientEvent) from by decide] at he
      exact Option.noConfusion he
    have h2 : s ≠ "RST" := by
      intro h
      rw [h, show decodeCommand "RST" = (none : Option SimClientEvent) from by decide] at he
      exact Option.noConfusion he
    have h3 : s ≠ "PING" := by
      intro h
      rw [h, show decodeCommand "PING" = (none : Option SimClientEvent) from by decide] at he
      exact Option.noConfusion he
    have h4 : s ≠ "PONG" := by
      intro h
      rw [h, show decodeCommand "PONG" = (none : Option SimClientEvent) from by decide] at he
      exact Option.noConfusion he
    simp [serialDuty, h1, h2, h3, h4, handleSerialCommand, he]

/-- Witness for C5: the unrecognized token `"BOGUS"` produces no command
and no error, and the recognized token `"PARKING_BRAKE:1"` is pushed as
exactly one command. -/
theorem c5_decode_table_witness :
    (decodeCommand "BOGUS" = none ∧ handleSerialCommand true "BOGUS" = .ok []) ∧
    serialDuty true true (some (.line "PARKING_BRAKE:1"))
      = .proceed [] [.parkingBrakeOn] true :=
  ⟨(c5_decode_table "BOGUS").2.1 (by decide),
   (c5_decode_table "PARKING_BRAKE:1").2.2 _ (by decide)⟩

/-! ## Claim C10 -/

/-- C10 counterexample: at airspeed `2^31` the panel writes the saturated
value `2147483647`, not the truncation `2147483648` the claim requires, so
the Content field is not always the airspeed truncated toward zero. -/
theorem c10_airspeed_counterexample :
    ratTruncTowardZero 2147483648 = 2147483648 ∧
    (airspeedStep (.ok (.setPanel ⟨false, .up, .up, .up, 2147483648⟩))).1
      = [.airspeedLine 2147483647] ∧
    OutLine.airspeedLine 2147483647 ≠ .airspeedLine (ratTruncTowardZero 2147483648) := by
  decide

/-- C10 amended: for every Aircraft State received, the
AirspeedIndicatorPanel writes exactly one airspeed line whose Content is
the airspeed converted with Rust `f64 as i32` semantics — truncated toward
zero and saturated to the `i32` range — which equals plain truncation
toward zero whenever the truncation lies in that range; there is no
change-detection: a state equal to the previously received one still
causes a write (two equal consecutive states produce two writes). -/
theorem c10_airspeed_amended (s : AircraftSimState)
    (hlo : -2147483648 ≤ ratTruncTowardZero s.airspeed)
    (hhi : ratTruncTowardZero s.airspeed ≤ 2147483647) :
    airspeedStep (.ok (.setPanel s))
      = ([.airspeedLine (ratTruncTowardZero s.airspeed)], none) ∧
    (airspeedRun [.ok (.setPanel s), .ok (.setPanel s)]).1
      = [.airspeedLine (ratTruncTowardZero s.airspeed),
         .airspeedLine (ratTruncTowardZero s.airspeed)] ∧
    f64AsI32 s.airspeed = ratTruncTowardZero s.airspeed := by
  have hcast : f64AsI32 s.airspeed = ratTruncTowardZero s.airspeed := by
    unfold f64AsI32
    rw [min_eq_right hhi, max_eq_right hlo]
  refine ⟨?_, ?_, hcast⟩ <;> simp [airspeedStep, airspeedRun, hcast]

/-- Witness for C10 (amended): at `sampleState` (airspeed 0) the panel
writes exactly one `Content<0>` line per received state and two equal
consecutive states produce two writes. -/
theorem c10_airspeed_amended_witness :
    airspeedStep (.ok (.setPanel sampleState))
      = ([.airspeedLine (ratTruncTowardZero sampleState.airspeed)], none) ∧
    (airspeedRun [.ok (.setPanel sampleState), .ok (.setPanel sampleState)]).1
      = [.airspeedLine (ratTruncTowardZero sampleState.airspeed),
         .airspeedLine (ratTruncTowardZero sampleState.airspeed)] ∧
    f64AsI32 sampleState.airspeed = ratTruncTowardZero sampleState.airspeed :=
  c10_airspeed_amended sampleState (by decide) (by decide)

/-! ## Claim C2 -/

/-- C2 counterexample: with fan-out list `[dead, alive]` (panel A's
receiver dropped, panel B alive), broadcasting a decoded Aircraft State
panics with `"Failed to send to panel"` and delivers the state to zero
panels — panel B does not receive it, the loop does not continue, and no
panel is removed from the fan-out set. -/
theorem c2_send_failure_counterexample :
    (simStep ⟨true, [false, true]⟩
        ⟨.empty, none, .ok (some (.object (.ok ⟨0, 0, 0, 0, false⟩))), .ok⟩).next
      = .panic "Failed to send to panel" ∧
    (simStep ⟨true, [false, true]⟩
        ⟨.empty, none, .ok (some (.object (.ok ⟨0, 0, 0, 0, false⟩))), .ok⟩).delivered
      = 0 := by
  decide

/-- The fan-out loop delivers to the longest alive prefix of `sim_txs` and
panics at the first dead channel (helper for C2). -/
theorem broadcastState_spec (panels : List Bool) :
    broadcastState panels =
      ((panels.takeWhile (fun b => b)).length,
       if panels.all (fun b => b) then none else some "Failed to send to panel") := by
  induction panels with
  | nil => simp [broadcastState]
  | cons a rest ih =>
    cases a <;> simp [broadcastState, ih]

/-- C2 amended: when the Simulation Link broadcasts an Aircraft State
produced from an ObjectData notification, it sends to each panel's state
channel in fan-out order; the panels of the longest alive prefix receive
the state, and if any channel's receiver has been dropped the send to the
first such channel panics (`expect("Failed to send to panel")`), aborting
the loop — no panel is ever removed from the fan-out set and panels after
the failing one do not receive the state.  Only when every channel is
alive does the loop continue, with the fan-out set unchanged. -/
theorem c2_send_failure_amended (st : SimState) (data : AircraftSimData) :
    (simStep st ⟨.empty, none, .ok (some (.object (.ok data))), .ok⟩).delivered
        = (st.panels.takeWhile (fun b => b)).length ∧
    (simStep st ⟨.empty, none, .ok (some (.object (.ok data))), .ok⟩).sentState
        = some data.toState ∧
    (simStep st ⟨.empty, none, .ok (some (.object (.ok data))), .ok⟩).next
      = (if st.panels.all (fun b => b)
         then .cont st
         else .panic "Failed to send to panel") := by
  obtain ⟨conn, panels⟩ := st
  by_cases hall : panels.all (fun b => b) <;>
    cases conn <;>
      simp [simStep, broadcastState_spec, hall]

/-! ## Claim C4 -/

/-- C4: a Quit notification makes the event loop return the peaceful
`Ok(false)`; the outer retry loop reacts to a peaceful disconnect, to any
in-loop error, and to any connect failure by dropping `connected`,
sleeping the fixed 5-second backoff and retrying; it terminates the thread
only on the intentional exit signal `Ok(true)`, so no Simulation Link
failure ever propagates out of the retry loop. -/
theorem c4_quit_peaceful_retry (st : SimState) (tr : Option String) (reg : RegOutcome)
    (attempt : Except String (Except String Bool)) :
    (simStep st ⟨.empty, tr, .ok (some .quit), reg⟩).next = .ret false ∧
    runOuter (.ok (.ok false)) = .retry 5000 false ∧
    (runOuter attempt = .exitThread ↔ attempt = .ok (.ok true)) ∧
    (attempt ≠ .ok (.ok true) → runOuter attempt = .retry 5000 false) := by
  refine ⟨?_, rfl, ?_, ?_⟩
  · obtain ⟨conn, panels⟩ := st
    cases conn <;> rfl
  · rcases attempt with e | r
    · simp [runOuter]
    · rcases r with e | b
      · simp [runOuter]
      · cases b <;> simp [runOuter]
  · intro h
    rcases attempt with e | r
    · simp [runOuter]
    · rcases r with e | b
      · simp [runOuter]
      · cases b
        · simp [runOuter]
        · exact absurd rfl h

/-- Witness for C4: a concrete Quit dispatch returns the peaceful signal,
and a concrete in-loop error leads to a 5-second-backoff retry. -/
theorem c4_quit_peaceful_retry_witness :
    (simStep ⟨true, [true]⟩ ⟨.empty, none, .ok (some .quit), .ok⟩).next = .ret false ∧
    runOuter (.ok (.error "SimConnect communication error")) = .retry 5000 false :=
  ⟨(c4_quit_peaceful_retry ⟨true, [true]⟩ none .ok
      (.ok (.error "SimConnect communication error"))).1,
   (c4_quit_peaceful_retry ⟨true, [true]⟩ none .ok
      (.ok (.error "SimConnect communication error"))).2.2.2 (by decide)⟩

/-! ## Claim C1 -/

/-- C1: while Connected, an Aircraft State received on the state channel
that is field-wise equal to the last state sent causes no write at all;
one that differs — or arrives when no state has ever been sent — causes
all four state lines (`PARKING_BRAKE`, `FRONT_GEAR_LED`, `LEFT_GEAR_LED`,
`RIGHT_GEAR_LED`) to be written exactly once each, after which the
received state is remembered as the last-sent state.  (The iteration is
isolated to the outbound-push duty: no serial line arrived and the
keepalive is not due.) -/
theorem c1_outbound_push_dedup (st : PanelLoopState) (inp : PanelInput)
    (state : AircraftSimState)
    (hconn : st.connected = true)
    (hrecv : inp.simRecv = .ok (.setPanel state))
    (hser : inp.serial = none)
    (hka : ¬ inp.now > st.et + 500) :
    (st.aircraft_sim_state = some state →
      eventsimStep st inp =
        { writes := [], cmds := [],
          next := .cont { connected := true, aircraft_sim_state := some state,
                          et := st.et } }) ∧
    (st.aircraft_sim_state ≠ some state →
      (eventsimStep st inp).writes = sendState state ∧
      (eventsimStep st inp).writes.countP OutLine.isParkingBrake = 1 ∧
      (eventsimStep st inp).writes.countP OutLine.isFrontGear = 1 ∧
      (eventsimStep st inp).writes.countP OutLine.isLeftGear = 1 ∧
      (eventsimStep st inp).writes.countP OutLine.isRightGear = 1 ∧
      (eventsimStep st inp).next =
        .cont { connected := true, aircraft_sim_state := some state, et := st.et }) := by
  obtain ⟨conn, last, et⟩ := st
  obtain ⟨simRecv, serial, alive, now⟩ := inp
  simp only at hconn hrecv hser hka
  subst hconn hrecv hser
  constructor
  · intro hlast
    simp only at hlast
    subst hlast
    simp [eventsimStep, recvDuty, serialDuty, keepalive, hka]
  · intro hlast
    simp only at hlast
    have hsend :
        ((last.map (fun old_state => old_state != state)).getD true) = true := by
      cases last with
      | none => rfl
      | some old =>
        have hne : old ≠ state := fun hh => hlast (by rw [hh])
        simp [hne]
    refine ⟨?_, ?_, ?_, ?_, ?_, ?_⟩ <;>
      simp [eventsimStep, recvDuty, serialDuty, keepalive, hka, hsend, sendState,
        OutLine.isParkingBrake, OutLine.isFrontGear, OutLine.isLeftGear,
        OutLine.isRightGear, List.countP_cons]

/-- Witness for C1: a state equal to the last-sent one writes nothing; a
differing state writes the four state lines. -/
theorem c1_outbound_push_dedup_witness :
    eventsimStep ⟨true, some sampleState, 0⟩
        ⟨.ok (.setPanel sampleState), none, true, 100⟩ =
      { writes := [], cmds := [],
        next := .cont { connected := true, aircraft_sim_state := some sampleState,
                        et := 0 } } ∧
    (eventsimStep ⟨true, some sampleState, 0⟩
        ⟨.ok (.setPanel sampleState2), none, true, 100⟩).writes = sendState sampleState2 :=
  ⟨(c1_outbound_push_dedup ⟨true, some sampleState, 0⟩
      ⟨.ok (.setPanel sampleState), none, true, 100⟩ sampleState
      rfl rfl rfl (by decide)).1 rfl,
   ((c1_outbound_push_dedup ⟨true, some sampleState, 0⟩
      ⟨.ok (.setPanel sampleState2), none, true, 100⟩ sampleState2
      rfl rfl rfl (by decide)).2 (by decide)).1⟩

/-! ## Claim C3 -/

/-- C3 counterexample: while still handshaking (not Connected), the
recognized command token `"MISC1:0"` is not ignored — it is decoded and
pushed to the fan-in command channel, contradicting "any other line
received while handshaking is ignored except RST". -/
theorem c3_handshake_counterexample :
    (eventsimStep ⟨false, none, 0⟩ ⟨.empty, some (.line "MISC1:0"), true, 0⟩).cmds
      = [.taxiLightsOff] ∧
    (eventsimStep ⟨false, none, 0⟩ ⟨.empty, some (.line "MISC1:0"), true, 0⟩).cmds
      ≠ [] := by
  decide

/-- C3 amended: while handshaking, the link replies `ACK` and transitions
to Connected exactly when the literal line `SYN|ACK` is received; `RST` is
fatal; but other lines are handled the same way as when connected rather
than ignored: `PING` gets a `PONG` reply, recognized command tokens are
decoded and pushed to the fan-in command channel, and only unrecognized
tokens (and `PONG`) are ignored.  In particular, for the input sequence
`["garbage", "SYN|ACK"]` the link ignores `"garbage"`, transitions to
Connected only after `"SYN|ACK"`, and emits exactly one `"ACK"`. -/
theorem c3_handshake_amended (msg : String) (alive : Bool) :
    (serialDuty false alive (some (.line msg)) = .proceed [.ack] [] true
      ↔ msg = "SYN|ACK") ∧
    (msg = "RST" → serialDuty false alive (some (.line msg)) = .fatal .disconnect) ∧
    (msg = "PING" → serialDuty false alive (some (.line msg)) = .proceed [.pong] [] false) ∧
    (decodeCommand msg = none → msg ≠ "SYN|ACK" → msg ≠ "RST" → msg ≠ "PING" →
      serialDuty false alive (some (.line msg)) = .proceed [] [] false) ∧
    (∀ e, decodeCommand msg = some e → alive = true →
      serialDuty false alive (some (.line msg)) = .proceed [] [e] false) ∧
    eventsimRun ⟨false, none, 0⟩
      [⟨.empty, some (.line "garbage"), alive, 0⟩,
       ⟨.empty, some (.line "SYN|ACK"), alive, 0⟩]
      = { writes := [.ack], cmds := [],
          next := .cont { connected := true, aircraft_sim_state := none, et := 0 } } := by
  refine ⟨?_, ?_, ?_, ?_, ?_, ?_⟩
  · simp only [serialDuty]
    split_ifs with h1 h2 h3 h4
    · simp [h1]
    · simp [h1, h2]
    · simp [h1, h3]
    · simp [h1, h4]
    · constructor
      · intro h
        exfalso
        revert h
        cases handleSerialCommand alive msg <;> simp
      · intro h
        exact absurd h h1
  · intro h
    subst h
    rfl
  · intro h
    subst h
    rfl
  · intro hdec h1 h2 h3
    by_cases h4 : msg = "PONG"
    · simp [serialDuty, h1, h2, h3, h4]
    · simp [serialDuty, h1, h2, h3, h4, handleSerialCommand, hdec]
  · intro e he halive
    subst halive
    have h1 : msg ≠ "SYN|ACK" := by
      intro h
      rw [h, show decodeCommand "SYN|ACK" = (none : Option SimClientEvent) from by decide] at he
      exact Option.noConfusion he
    have h2 : msg ≠ "RST" := by
      intro h
      rw [h, show decodeCommand "RST" = (none : Option SimClientEvent) from by decide] at he
      exact Option.noConfusion he
    have h3 : msg ≠ "PING" := by
      intro h
      rw [h, show decodeCommand "PING" = (none : Option SimClientEvent) from by decide] at he
      exact Option.noConfusion he
    have h4 : msg ≠ "PONG" := by
      intro h
      rw [h, show decodeCommand "PONG" = (none : Option SimClientEvent) from by decide] at he
      exact Option.noConfusion he
    simp [serialDuty, h1, h2, h3, h4, handleSerialCommand, he]
  · cases alive <;> decide

/-- Witness for C3 (amended): `RST` during handshake is fatal, and the
recognized token `"LANDING_GEAR:1"` during handshake is pushed as a
command rather than ignored. -/
theorem c3_handshake_amended_witness :
    serialDuty false true (some (.line "RST")) = .fatal .disconnect ∧
    serialDuty false true (some (.line "LANDING_GEAR:1"))
      = .proceed [] [.landingGearDown] false :=
  ⟨(c3_handshake_amended "RST" true).2.1 rfl,
   (c3_handshake_amended "LANDING_GEAR:1" true).2.2.2.2.1 _ (by decide) rfl⟩

/-! ## Claim C6 -/

/-- The state-push duty never writes a `PING` line (helper for C6). -/
theorem recvDuty_no_ping (st : PanelLoopState) (r : TryRecv)
    (w : List OutLine) (last : Option AircraftSimState)
    (h : recvDuty st r = .inl (w, last)) :
    w.countP OutLine.isPing = 0 := by
  cases r with
  | ok e =>
    cases e with
    | setPanel state =>
      by_cases hc : st.connected <;>
        simp [recvDuty, hc] at h
      · obtain ⟨hw, -⟩ := h
        subst hw
        split <;>
          simp [sendState, OutLine.isPing, List.countP_cons]
      · obtain ⟨hw, -⟩ := h
        subst hw
        rfl
    | setSimulator e =>
      simp [recvDuty] at h
      obtain ⟨hw, -⟩ := h
      subst hw
      rfl
  | empty =>
    simp [recvDuty] at h
    obtain ⟨hw, -⟩ := h
    subst hw
    rfl
  | disconnected =>
    by_cases hc : st.connected <;> simp [recvDuty, hc] at h
    obtain ⟨hw, -⟩ := h
    subst hw
    rfl

/-- The serial-read duty never writes a `PING` line (helper for C6). -/
theorem serialDuty_no_ping (connected alive : Bool) (ser : Option SerialRead)
    (w : List OutLine) (cmds : List SimClientEvent) (conn : Bool)
    (h : serialDuty connected alive ser = .proceed w cmds conn) :
    w.countP OutLine.isPing = 0 := by
  match ser with
  | none =>
    simp [serialDuty] at h
    obtain ⟨hw, -⟩ := h
    subst hw
    rfl
  | some .timedOut =>
    simp [serialDuty] at h
    obtain ⟨hw, -⟩ := h
    subst hw
    rfl
  | some (.ioErr cause) =>
    simp [serialDuty] at h
  | some (.line msg) =>
    simp only [serialDuty] at h
    split_ifs at h with h1 h2 h3 h4
    · simp only [SerialAction.proceed.injEq] at h
      obtain ⟨hw, -, -⟩ := h
      subst hw
      rfl
    · simp only [SerialAction.proceed.injEq] at h
      obtain ⟨hw, -, -⟩ := h
      subst hw
      rfl
    · simp only [SerialAction.proceed.injEq] at h
      obtain ⟨hw, -, -⟩ := h
      subst hw
      rfl
    · revert h
      cases handleSerialCommand alive msg with
      | ok cs =>
        intro h
        simp only [SerialAction.proceed.injEq] at h
        obtain ⟨hw, -, -⟩ := h
        subst hw
        rfl
      | error m =>
        intro h
        exact absurd h (by simp)

/-- C6 counterexample: the keepalive timer tracks the last keepalive
`PING`, not the last line sent.  From a freshly-connected link
(`et = 0`), a state received at `t = 400` ms writes the four state lines
without touching the timer, and the very next iteration at `t = 501` ms —
only 101 ms after those lines were sent — still emits a `PING`, refuting
"if 500 ms have not elapsed since the last line sent, no PING is
emitted". -/
theorem c6_keepalive_counterexample :
    (eventsimStep ⟨true, none, 0⟩
        ⟨.ok (.setPanel sampleState), none, true, 400⟩).writes = sendState sampleState ∧
    sendState sampleState ≠ [] ∧
    (eventsimStep ⟨true, none, 0⟩
        ⟨.ok (.setPanel sampleState), none, true, 400⟩).next
      = .cont { connected := true, aircraft_sim_state := some sampleState, et := 0 } ∧
    501 - 400 ≤ 500 ∧
    (eventsimStep ⟨true, some sampleState, 0⟩
        ⟨.empty, none, true, 501⟩).writes = [.ping] := by
  decide

/-- C6 amended: the keepalive duty measures the interval since the last
keepalive `PING` (or since loop start), not since the last line sent: in
every iteration that completes normally, exactly one `PING` is emitted
when `now > et + 500` ms and none otherwise, and `et` is updated to `now`
exactly when the `PING` fires — writing state lines or protocol replies
never updates the timer, so a `PING` can be emitted even though another
line was sent less than 500 ms before. -/
theorem c6_keepalive_amended (st : PanelLoopState) (inp : PanelInput)
    (st' : PanelLoopState)
    (h : (eventsimStep st inp).next = .cont st') :
    (eventsimStep st inp).writes.countP OutLine.isPing
      = (if inp.now > st.et + 500 then 1 else 0) ∧
    st'.et = (if inp.now > st.et + 500 then inp.now else st.et) := by
  rcases hrec : recvDuty st inp.simRecv with ⟨w1, last⟩ | m
  · rcases hser : serialDuty st.connected inp.hwTxAlive inp.serial
      with ⟨w2, cmds, conn⟩ | ⟨e⟩ | ⟨m2⟩
    · have h1 := recvDuty_no_ping st inp.simRecv w1 last hrec
      have h2 := serialDuty_no_ping st.connected inp.hwTxAlive inp.serial w2 cmds conn hser
      by_cases hka : inp.now > st.et + 500 <;>
        · simp only [eventsimStep, hrec, hser, keepalive, hka, if_true, if_false,
            PanelStep.cont.injEq] at h ⊢
          subst h
          simp [List.countP_append, h1, h2, OutLine.isPing, List.countP_cons, hka]
    · simp [eventsimStep, hrec, hser] at h
    · simp [eventsimStep, hrec, hser] at h
  · simp [eventsimStep, hrec] at h

/-- Witness for C6 (amended): a normally-completing iteration at
`now = 501` with `et = 0` emits exactly one `PING` and resets the timer. -/
theorem c6_keepalive_amended_witness :
    (eventsimStep ⟨true, none, 0⟩ ⟨.empty, none, true, 501⟩).writes.countP OutLine.isPing
      = (if (501 : Nat) > 0 + 500 then 1 else 0) ∧
    (PanelLoopState.mk true none 501).et = (if (501 : Nat) > 0 + 500 then 501 else 0) :=
  c6_keepalive_amended ⟨true, none, 0⟩ ⟨.empty, none, true, 501⟩
    ⟨true, none, 501⟩ (by decide)

/-! ## Claim C7 -/

/-- While not connected, an iteration of the sim event loop hands nothing
to `transmit_event` (helper for C7). -/
theorem simStep_not_connected_no_transmit (st : SimState) (inp : SimInput)
    (hc : st.connected = false) :
    (simStep st inp).transmitted = [] := by
  obtain ⟨conn, panels⟩ := st
  simp only at hc
  subst hc
  obtain ⟨hw, tr, dispatch, reg⟩ := inp
  rcases dispatch with e | nopt
  · rfl
  · rcases nopt with - | n
    · rfl
    · cases n with
      | opened => cases reg <;> rfl
      | quit => rfl
      | unknown => rfl
      | object conv =>
        rcases conv with e | d
        · rfl
        · simp only [simStep]
          rcases hb : (broadcastState panels).2 with - | m <;> simp [hb]

/-- If an iteration starts not connected and continues, the next state is
either unchanged or the iteration processed an `Open` dispatch whose full
registration sequence succeeded and only then set the flag (helper for
C7). -/
theorem simStep_connect_requires_open (st : SimState) (inp : SimInput) (st' : SimState)
    (hc : st.connected = false)
    (hnext : (simStep st inp).next = .cont st') :
    st' = st ∨
      (inp.dispatch = .ok (some .opened) ∧ inp.regOutcome = .ok ∧
        st' = { connected := true, panels := st.panels }) := by
  obtain ⟨conn, panels⟩ := st
  simp only at hc
  subst hc
  obtain ⟨hw, tr, dispatch, reg⟩ := inp
  rcases dispatch with e | nopt
  · simp [simStep] at hnext
  · rcases nopt with - | n
    · simp [simStep] at hnext
      exact .inl hnext.symm
    · cases n with
      | opened =>
        cases reg with
        | ok =>
          simp [simStep] at hnext
          exact .inr ⟨rfl, rfl, hnext.symm⟩
        | failAt i msg => simp [simStep] at hnext
      | quit => simp [simStep] at hnext
      | unknown =>
        simp [simStep] at hnext
        exact .inl hnext.symm
      | object conv =>
        rcases conv with e | d
        · simp [simStep] at hnext
        · simp only [simStep] at hnext
          rcases hb : (broadcastState panels).2 with - | m <;>
            simp [hb] at hnext
          exact .inl hnext.symm

/-- Over any run of the sim event loop started not connected, if no
iteration's dispatch is a successfully-registered `Open`, nothing is ever
handed to `transmit_event` (helper for C7). -/
theorem simRun_gated_no_transmit (st : SimState) (inputs : List SimInput)
    (hc : st.connected = false)
    (hno : ∀ i ∈ inputs, ¬(i.dispatch = .ok (some .opened) ∧ i.regOutcome = .ok)) :
    (simRun st inputs).1 = [] := by
  induction inputs generalizing st with
  | nil => rfl
  | cons inp rest ih =>
    have htx := simStep_not_connected_no_transmit st inp hc
    simp only [simRun]
    cases hnext : (simStep st inp).next with
    | cont st' =>
      have hstep := simStep_connect_requires_open st inp st' hc hnext
      have hc' : st'.connected = false := by
        rcases hstep with rfl | ⟨hopen, hreg, -⟩
        · exact hc
        · exact absurd ⟨hopen, hreg⟩ (hno inp (List.mem_cons_self inp rest))
      have := ih st' hc' (fun i hi => hno i (List.mem_cons_of_mem inp hi))
      simp [htx, this]
    | ret b => simp [htx]
    | err e => simp [htx]
    | panic m => simp [htx]

/-- C7: the Simulation Link never transmits a Panel Command before the
registration sequence — the Aircraft State data subscription plus all
fourteen command-to-host-event mappings — has succeeded: the registration
sequence consists of exactly those fifteen calls; command forwarding is
gated on the `connected` flag in every iteration (nothing is transmitted
while it is false); the flag becomes true only by an `Open` dispatch whose
registration sequence succeeded; and over any run started disconnected in
which no `Open` registers successfully, nothing is ever transmitted. -/
theorem c7_registration_gating (st : SimState) (inp : SimInput) (st' : SimState)
    (panels : List Bool) (inputs : List SimInput)
    (hc : st.connected = false)
    (hnext : (simStep st inp).next = .cont st')
    (hno : ∀ i ∈ inputs, ¬(i.dispatch = .ok (some .opened) ∧ i.regOutcome = .ok)) :
    regCalls.length = 15 ∧
    (∀ e : SimClientEvent, RegCall.mapEvent e ∈ regCalls) ∧
    RegCall.registerObject ∈ regCalls ∧
    (simStep st inp).transmitted = [] ∧
    (st'.connected = true →
      inp.dispatch = .ok (some .opened) ∧ inp.regOutcome = .ok) ∧
    (simRun { connected := false, panels := panels } inputs).1 = [] := by
  refine ⟨rfl, by intro e; cases e <;> decide, by decide,
    simStep_not_connected_no_transmit st inp hc, ?_, ?_⟩
  · intro hc'
    rcases simStep_connect_requires_open st inp st' hc hnext with rfl | ⟨hopen, hreg, -⟩
    · rw [hc] at hc'
      exact absurd hc' (by decide)
    · exact ⟨hopen, hreg⟩
  · exact simRun_gated_no_transmit _ inputs rfl hno

/-- Witness for C7: a run in which a command is already waiting on the
fan-in channel but the host never completes registration transmits
nothing. -/
theorem c7_registration_gating_witness :
    regCalls.length = 15 ∧
    (∀ e : SimClientEvent, RegCall.mapEvent e ∈ regCalls) ∧
    RegCall.registerObject ∈ regCalls ∧
    (simStep ⟨false, [true]⟩
        ⟨.ok (.setSimulator .flapsUp), none, .ok none, .ok⟩).transmitted = [] ∧
    ((SimState.mk false [true]).connected = true →
      (SimInput.mk (.ok (.setSimulator .flapsUp)) none (.ok none) .ok).dispatch
          = .ok (some .opened) ∧
      (SimInput.mk (.ok (.setSimulator .flapsUp)) none (.ok none) .ok).regOutcome = .ok) ∧
    (simRun { connected := false, panels := [true] }
        [⟨.ok (.setSimulator .flapsUp), none, .ok none, .ok⟩,
         ⟨.ok (.setSimulator .flapsUp), none, .ok (some (.object (.ok ⟨0, 0, 0, 0, false⟩))), .ok⟩]).1
      = [] :=
  c7_registration_gating ⟨false, [true]⟩
    ⟨.ok (.setSimulator .flapsUp), none, .ok none, .ok⟩
    ⟨false, [true]⟩ [true]
    [⟨.ok (.setSimulator .flapsUp), none, .ok none, .ok⟩,
     ⟨.ok (.setSimulator .flapsUp), none, .ok (some (.object (.ok ⟨0, 0, 0, 0, false⟩))), .ok⟩]
    rfl (by decide) (by decide)

end Picard
